import Mathlib

/-!
Verification of the chat-service core of the `kwassist` repository.

The development shallowly embeds the three chat-variant request handlers
(`ChatAPISimple`, `ChatAPIWeb`, `ChatAPIDoc`) and the components they are
built from: the stream-rewriting transformer of the document variant
(`customTransformer` in `chat-api-doc.ts`), the citation-candidate
construction, the search-query enrichment of the web variant
(`optimizeSearchQuery` in `chat-api-web.ts`), and the per-page evidence
collection with failure isolation.  External collaborators (OpenAI
completion, Cosmos history store, Bing search, puppeteer page fetches) are
modelled as oracles supplied through an environment record; fallible calls
return `Except`.  JavaScript strings are modelled as `List Char` where chunk
arithmetic matters and as `String` elsewhere; JS string truthiness is
modelled by comparison with the empty string.
-/

set_option autoImplicit false

namespace Kwassist

/-! ### Generic string machinery (JS `includes`, `indexOf`, regex split) -/

/-- Index of the leftmost occurrence of `needle` in `hay`, mirroring JS
`String.prototype.indexOf` (with `none` for `-1`). -/
def subIndex (needle : List Char) : List Char → Option Nat
  | [] => if needle.isPrefixOf ([] : List Char) then some 0 else none
  | c :: t =>
      if needle.isPrefixOf (c :: t) then some 0
      else (subIndex needle t).map (fun k => k + 1)

/-- JS `String.prototype.includes`. -/
def containsSub (hay needle : List Char) : Bool :=
  (subIndex needle hay).isSome

/-- The character class matched by `\s` in JS regexes. -/
def jsWhitespace (c : Char) : Bool :=
  c == ' ' || c == '\t' || c == '\n' || c == '\r' ||
  c == '\x0b' || c == '\x0c' || c == '\u00A0' || c == '\u1680' ||
  decide (0x2000 ≤ c.toNat ∧ c.toNat ≤ 0x200A) ||
  c == '\u2028' || c == '\u2029' || c == '\u202F' || c == '\u205F' ||
  c == '\u3000' || c == '\uFEFF'

/-- The exact opening token the transformer tests for with
`buffer.includes("{% citation")`. -/
def openTok : List Char := ("\x7b% citation").data

/-- The closing token `/%}` of a citation marker. -/
def closeTok : List Char := ("/%\x7d").data

/-- Tries to match the regex `{%\s*citation` at the head of the list;
on success returns the remainder after the match.  Because `\s*` is greedy
and `c` is not whitespace, the match is the maximal whitespace run. -/
def matchOpen : List Char → Option (List Char)
  | '\x7b' :: '%' :: rest =>
      let r2 := rest.dropWhile jsWhitespace
      if ("citation").data.isPrefixOf r2 then some (r2.drop 8) else none
  | _ => none

/-- Fuelled scanner implementing JS `buffer.split(/{%\s*citation/)`. -/
def splitCitationAux : Nat → List Char → List Char → List (List Char)
  | _, acc, [] => [acc.reverse]
  | 0, acc, rest => [acc.reverse ++ rest]
  | fuel + 1, acc, c :: cs =>
      match matchOpen (c :: cs) with
      | some rest => acc.reverse :: splitCitationAux fuel [] rest
      | none => splitCitationAux fuel (c :: acc) cs

/-- JS `buffer.split(/{%\s*citation/)`. -/
def splitCitation (s : List Char) : List (List Char) :=
  splitCitationAux s.length [] s

/-! ### Citation data and its JSON serialization -/

/-- One entry of `citationData` in `ChatAPIDoc`:
`{name: doc.deptName, id: doc.id, source: doc.source}`. -/
structure CitationItem where
  name : String
  id : String
  source : String
deriving DecidableEq

/-- One entry of `validCitationData` in the transformer: `{name, id}`. -/
structure MarkerItem where
  name : String
  id : String
deriving DecidableEq

/-- Hex digit characters as produced by `JSON.stringify` escapes. -/
def hexDigitChar (n : Nat) : Char :=
  if n < 10 then Char.ofNat (48 + n) else Char.ofNat (87 + n)

/-- Escaping of a single character inside a `JSON.stringify` string. -/
def jsonEscapeChar (c : Char) : List Char :=
  if c == '"' then ['\\', '"']
  else if c == '\\' then ['\\', '\\']
  else if c == '\x08' then ['\\', 'b']
  else if c == '\x09' then ['\\', 't']
  else if c == '\x0a' then ['\\', 'n']
  else if c == '\x0c' then ['\\', 'f']
  else if c == '\x0d' then ['\\', 'r']
  else if decide (c.toNat < 0x20) then
    ['\\', 'u', '0', '0', hexDigitChar (c.toNat / 16), hexDigitChar (c.toNat % 16)]
  else [c]

/-- A JSON string literal, `JSON.stringify` style. -/
def jsonStringLit (s : String) : List Char :=
  '"' :: (s.data.map jsonEscapeChar).flatten ++ ['"']

/-- `JSON.stringify` of one `{name, id}` object. -/
def jsonOfItem (it : MarkerItem) : List Char :=
  ("\x7b\"name\":").data ++ jsonStringLit it.name ++ (",\"id\":").data ++
    jsonStringLit it.id ++ ("\x7d").data

/-- `JSON.stringify` of an array of `{name, id}` objects. -/
def jsonOfItems (items : List MarkerItem) : List Char :=
  ("[").data ++ List.intercalate (",").data (items.map jsonOfItem) ++ ("]").data

/-- The `validCitationData` computation inside the transformer: every item's
name is defaulted to "Unknown Document" when falsy, and an empty list is
replaced by the single placeholder item. -/
def validCitationData (cd : List CitationItem) : List MarkerItem :=
  let v := cd.map (fun it =>
    { name := if it.name == "" then "Unknown Document" else it.name,
      id := it.id : MarkerItem })
  if v.length == 0 then [{ name := "Document Not Found", id := "unknown" }] else v

/-- The freshly serialized replacement marker
`` `{% citation items=${JSON.stringify(validCitationData)} /%}` ``. -/
def newCitation (cd : List CitationItem) : List Char :=
  ("\x7b% citation items=").data ++ jsonOfItems (validCitationData cd) ++ (" /%\x7d").data

/-! ### The stream-rewriting transformer (`customTransformer`) -/

/-- One `transform(chunk, controller)` call of `customTransformer` in
`chat-api-doc.ts`.  State is the string `buffer`; the result is the pair of
the concatenated text enqueued during the call and the buffer afterwards.
Follows the source line by line: append the decoded text to the buffer; if
the buffer lacks the literal opening token, forward the incoming text and
clear the buffer; if it has the opening token but no closing token, forward
nothing; otherwise split on `{%\s*citation`, forward the part before the
first match, rewrite the marker from the citation data when `/%}` occurs in
the second part (forwarding the rewritten marker and the remainder of that
part), and otherwise leave the buffer untouched after forwarding the first
part. -/
def transformStep (cd : List CitationItem) (buffer text : List Char) :
    List Char × List Char :=
  let buf := buffer ++ text
  if containsSub buf openTok then
    if containsSub buf closeTok then
      match splitCitation buf with
      | p0 :: p1 :: _ =>
          match subIndex closeTok p1 with
          | some n => (p0 ++ newCitation cd ++ p1.drop (n + 3), [])
          | none => (p0, buf)
      | _ => ([], buf)
    else ([], buf)
  else (text, [])

/-- Feed a list of chunks through the transformer, collecting the text
enqueued per chunk and the final buffer. -/
def runChunks (cd : List CitationItem) (chunks : List (List Char)) :
    List (List Char) × List Char :=
  chunks.foldl
    (fun acc ch =>
      let st := transformStep cd acc.2 ch
      (acc.1 ++ [st.1], st.2))
    ([], [])

/-- Total forwarded output for a chunk list, including the `flush` of any
remaining buffer at stream end. -/
def runAll (cd : List CitationItem) (chunks : List (List Char)) : List Char :=
  let r := runChunks cd chunks
  r.1.flatten ++ r.2

/-! ### Query enrichment (`optimizeSearchQuery` in `chat-api-web.ts`) -/

/-- The Japan-time value used by the web handler: calendar year and month
(`getFullYear()`, `getMonth() + 1`) and the `toISOString().split('T')[0]`
date string. -/
structure JpDateTime where
  year : Nat
  month : Nat
  isoDate : String
deriving DecidableEq

/-- JS `pattern.test` for a bare string alternative: substring containment. -/
def containsStr (hay pat : String) : Bool :=
  containsSub hay.data pat.data

/-- `\d` of a JS regex (no unicode flag): ASCII digits. -/
def isAsciiDigit (c : Char) : Bool :=
  decide ('0' ≤ c ∧ c ≤ '9')

/-- Match of `\d{1,2}日` at the head of the list. -/
def dayAt : List Char → Bool
  | c1 :: rest =>
      isAsciiDigit c1 &&
        (match rest with
         | '日' :: _ => true
         | c2 :: '日' :: _ => isAsciiDigit c2
         | _ => false)
  | [] => false

/-- Match of `\d{1,2}月\d{1,2}日` at the head of the list. -/
def monthDayAt : List Char → Bool
  | c1 :: rest =>
      isAsciiDigit c1 &&
        (match rest with
         | '月' :: r2 => dayAt r2
         | c2 :: '月' :: r2 => isAsciiDigit c2 && dayAt r2
         | _ => false)
  | [] => false

/-- `/(\d{4}年)?(\d{1,2})月(\d{1,2})日/.test`: since the leading group is
optional, a match exists exactly when the mandatory core
`\d{1,2}月\d{1,2}日` occurs somewhere. -/
def hasDateFormAux : List Char → Bool
  | [] => false
  | c :: t => monthDayAt (c :: t) || hasDateFormAux t

/-- `DATE_PATTERNS.some(pattern => pattern.test(message))`: the five date
regexes of `chat-api-web.ts` (`一昨日` contains `昨日`, both kept for
fidelity). -/
def hasDatePattern (m : String) : Bool :=
  (containsStr m "今日" || containsStr m "本日" || containsStr m "現在" ||
    containsStr m "最新") ||
  hasDateFormAux m.data ||
  (containsStr m "昨日" || containsStr m "一昨日") ||
  (containsStr m "今週" || containsStr m "今月" || containsStr m "今年") ||
  (containsStr m "最近" || containsStr m "直近")

/-- `/最新|現在|今|本日/.test(message)`: the immediacy pattern. -/
def hasImmediacy (m : String) : Bool :=
  containsStr m "最新" || containsStr m "現在" || containsStr m "今" ||
    containsStr m "本日"

/-- `optimizeSearchQuery(message, jpDateTime)`: appends a `year年month月`
suffix when a date pattern matches the message, and an
`after:YYYY-MM-DD` token when the immediacy pattern matches the message. -/
def optimizeSearchQuery (message : String) (jp : JpDateTime) : String :=
  let query := message
  let query :=
    if hasDatePattern message then
      query ++ " " ++ toString jp.year ++ "年" ++ toString jp.month ++ "月"
    else query
  let query :=
    if hasImmediacy message then query ++ " after:" ++ jp.isoDate
    else query
  query

/-! ### Retrieval results and citation candidates (`chat-api-doc.ts`) -/

/-- A vector-search hit; absent `source`/`deptName` fields (JS `undefined`)
and empty strings are both falsy in the source's checks and are modelled
uniformly by `""`. -/
structure RelevantDocument where
  pageContent : String
  source : String
  deptName : String
  id : String
deriving DecidableEq

/-- JS string truthiness. -/
def jsTruthy (s : String) : Bool := s != ""

/-- The `citationData` preparation: keep documents with both `source` and
`deptName` truthy, each becoming `{name: deptName, id, source}`. -/
def citationData (docs : List RelevantDocument) : List CitationItem :=
  (docs.filter (fun d => jsTruthy d.source && jsTruthy d.deptName)).map
    (fun d => { name := d.deptName, id := d.id, source := d.source })

/-- `content.replace(/(\r\n|\n|\r)/gm, "")`. -/
def stripNewlines (s : String) : String :=
  ⟨s.data.filter (fun c => c != '\n' && c != '\r')⟩

/-- One entry of the structured context string, `null` for invalid
documents. -/
def docContextEntry (d : RelevantDocument) : Option String :=
  if jsTruthy d.source && jsTruthy d.deptName then
    some (d.source ++ "\nfile name: " ++ d.deptName ++ "\nfile id: " ++ d.id ++
      "\n" ++ stripNewlines d.pageContent)
  else none

/-- The `context` string of `ChatAPIDoc`: valid entries joined with the
separator line. -/
def docContext (docs : List RelevantDocument) : String :=
  String.intercalate "\n------\n" (docs.filterMap docContextEntry)

/-! ### Evidence collection (`ChatAPIWeb` page scraping loop) -/

/-- One Bing search hit as consumed by the scraping loop; missing `name`,
`snippet` or `datePublished` are modelled by `""`. -/
structure SearchPage where
  url : String
  name : String
  snippet : String
  datePublished : String
deriving DecidableEq

/-- Oracle outcome of the sandboxed puppeteer fetch of one page: either the
extracted values (cleaned URL, page text, optional publish date) or any
failure (navigation timeout, DOM error, invalid URL). -/
inductive FetchOutcome where
  | fetched (cleanUrl : String) (pageText : String) (publishDate : Option String)
  | failed
deriving DecidableEq

/-- One record of `webPageContents`. -/
structure Evidence where
  url : String
  title : String
  snippet : String
  content : String
  publishDate : Option String
deriving DecidableEq

/-- JS `a || b` on strings. -/
def jsOrStr (a b : String) : String := if a == "" then b else a

/-- The `page.datePublished ? new Date(...).toLocaleString(...) : null`
fallback; `convertDate` abstracts the JST locale conversion. -/
def fallbackDate (convertDate : String → String) (page : SearchPage) :
    Option String :=
  if page.datePublished == "" then none else some (convertDate page.datePublished)

/-- The per-page body of the `Promise.all` map in `ChatAPIWeb`: a successful
fetch yields the cleaned URL, the extracted text truncated to 2000
characters and the extracted publish date (falling back to the converted
search-provided date when absent or empty); any failure is caught per page
and degrades to a snippet-only record. -/
def evidenceOf (convertDate : String → String)
    (outcome : SearchPage → FetchOutcome) (page : SearchPage) : Evidence :=
  match outcome page with
  | .fetched cleanUrl pageText publishDate =>
      { url := cleanUrl,
        title := jsOrStr page.name "Untitled",
        snippet := jsOrStr page.snippet "",
        content := ⟨pageText.data.take 2000⟩,
        publishDate :=
          match publishDate with
          | some s => if s == "" then fallbackDate convertDate page else some s
          | none => fallbackDate convertDate page }
  | .failed =>
      { url := page.url,
        title := jsOrStr page.name "Untitled",
        snippet := jsOrStr page.snippet "",
        content := jsOrStr page.snippet "",
        publishDate := fallbackDate convertDate page }

/-- `webPageContents`: the `Promise.all` fan-out over the search results,
joined in the original order. -/
def collectWebPageContents (convertDate : String → String)
    (outcome : SearchPage → FetchOutcome) (pages : List SearchPage) :
    List Evidence :=
  pages.map (evidenceOf convertDate outcome)

/-! ### Model selection -/

/-- Lines 10-16 of `chat-api-simple.ts`: the `GPT-3` branch is computed and
then unconditionally overwritten. -/
def selectModelSimple (chatAPIModel : String) : String :=
  let m := if chatAPIModel == "GPT-3" then "gpt-35-turbo-16k" else "gpt-4o"
  let m := "gpt-4o-mini"
  m

/-- Lines 78-84 of `chat-api-doc.ts`: identical dead branch and override. -/
def selectModelDoc (chatAPIModel : String) : String :=
  let m := if chatAPIModel == "GPT-3" then "gpt-35-turbo-16k" else "gpt-4o"
  let m := "gpt-4o-mini"
  m

/-- Lines 54-55 of `chat-api-web.ts`: a plain ternary with no override. -/
def selectModelWeb (chatAPIModel : String) : String :=
  if chatAPIModel == "GPT-3" then "gpt-35-turbo-16k" else "gpt-4o-mini"

/-! ### The three request handlers -/

/-- A JS throwable as seen by the `catch (e: unknown)` blocks: an `Error`
carries its `.message` and its `.toString()` form; anything else is
`nonError`. -/
inductive JsThrown where
  | jsError (message : String) (str : String)
  | nonError
deriving DecidableEq

/-- A chat message `{role, content}`. -/
structure ChatMessage where
  role : String
  content : String
deriving DecidableEq

/-- One `chatHistory.addMessage(message, context?)` call that actually
reached the store. -/
structure HistoryWrite where
  message : ChatMessage
  context : Option String
deriving DecidableEq

/-- The handler's HTTP-level result: a streaming response carrying the
forwarded text, a plain `new Response(body, {status, statusText})`, or an
exception escaping the handler uncaught. -/
inductive ApiRes where
  | streaming (body : List Char)
  | plain (body : String) (status : Nat) (statusText : String)
  | uncaught (e : JsThrown)
deriving DecidableEq

/-- The `catch` block shared by all three variants: an `Error` yields a 500
with the message as body and the string form as status text; any other
throwable yields the generic 500. -/
def errorResponseOf (e : JsThrown) : ApiRes :=
  match e with
  | .jsError msg s => .plain msg 500 s
  | .nonError => .plain "An unknown error occurred." 500 "Unknown Error"

/-- Observable trace of one request: the response, the history writes that
reached the store in order, and the model name passed to
`completions.create` when that call was reached. -/
structure HandlerRun where
  response : ApiRes
  writes : List HistoryWrite
  modelRequested : Option String
deriving DecidableEq

deriving instance DecidableEq for Except

/-- Environment of `ChatAPISimple`: each collaborator call either yields a
value or throws. `completionChunks` is the token stream of a successful
`completions.create` call (the error case models the call or stream
failing). -/
structure SimpleEnv where
  initSession : Except JsThrown ChatMessage
  hashedId : Except JsThrown String
  addUserMessage : Except JsThrown Unit
  getMessages : Except JsThrown (List ChatMessage)
  completionChunks : Except JsThrown (List (List Char))
deriving DecidableEq

/-- `ChatAPISimple` (`chat-api-simple.ts`): session init, model selection,
the user-message write and the history read all run before the `try`
block, so their exceptions escape; only the completion call is guarded.
On stream completion the assistant message is recorded. -/
def ChatAPISimple (chatAPIModelFlag : String) (env : SimpleEnv) : HandlerRun :=
  match env.initSession with
  | .error e => { response := .uncaught e, writes := [], modelRequested := none }
  | .ok lastHumanMessage =>
  let chatAPIModel := selectModelSimple chatAPIModelFlag
  match env.hashedId with
  | .error e => { response := .uncaught e, writes := [], modelRequested := none }
  | .ok _userId =>
  match env.addUserMessage with
  | .error e => { response := .uncaught e, writes := [], modelRequested := none }
  | .ok _ =>
  let writes1 : List HistoryWrite :=
    [{ message := { role := "user", content := lastHumanMessage.content },
       context := none }]
  match env.getMessages with
  | .error e => { response := .uncaught e, writes := writes1, modelRequested := none }
  | .ok _history =>
  match env.completionChunks with
  | .error e =>
      { response := errorResponseOf e, writes := writes1,
        modelRequested := some chatAPIModel }
  | .ok chunks =>
      { response := .streaming chunks.flatten,
        writes := writes1 ++
          [{ message := { role := "assistant", content := ⟨chunks.flatten⟩ },
             context := none }],
        modelRequested := some chatAPIModel }

/-- Environment of `ChatAPIDoc`. -/
structure DocEnv where
  initSession : Except JsThrown ChatMessage
  hashedId : Except JsThrown String
  getMessages : Except JsThrown (List ChatMessage)
  relevantDocuments : Except JsThrown (List RelevantDocument)
  completionChunks : Except JsThrown (List (List Char))
deriving DecidableEq

/-- `ChatAPIDoc` (`chat-api-doc.ts`): session init, history read and the
similarity search run before the `try` block, so their exceptions escape;
the completion call is guarded.  No history write happens before or during
the completion call; `onCompletion` (fired with the raw, untransformed
completion text) records the user message and then the assistant message
with the retrieval context attached.  The response streams the transformed
chunks. -/
def ChatAPIDoc (chatAPIModelFlag : String) (env : DocEnv) : HandlerRun :=
  match env.initSession with
  | .error e => { response := .uncaught e, writes := [], modelRequested := none }
  | .ok lastHumanMessage =>
  match env.hashedId with
  | .error e => { response := .uncaught e, writes := [], modelRequested := none }
  | .ok _userId =>
  let chatAPIModel := selectModelDoc chatAPIModelFlag
  match env.getMessages with
  | .error e => { response := .uncaught e, writes := [], modelRequested := none }
  | .ok _history =>
  match env.relevantDocuments with
  | .error e => { response := .uncaught e, writes := [], modelRequested := none }
  | .ok docs =>
  let context := docContext docs
  let cd := citationData docs
  match env.completionChunks with
  | .error e =>
      { response := errorResponseOf e, writes := [],
        modelRequested := some chatAPIModel }
  | .ok chunks =>
      { response := .streaming (runAll cd chunks),
        writes :=
          [{ message := { role := "user", content := lastHumanMessage.content },
             context := none },
           { message := { role := "assistant", content := ⟨chunks.flatten⟩ },
             context := some context }],
        modelRequested := some chatAPIModel }

/-- Environment of `ChatAPIWeb`. -/
structure WebEnv where
  initSession : Except JsThrown ChatMessage
  hashedId : Except JsThrown String
  getMessages : Except JsThrown (List ChatMessage)
  searchValue : Except JsThrown (Option (List SearchPage))
  convertDate : String → String
  fetchOutcome : SearchPage → FetchOutcome
  addUserMessage : Except JsThrown Unit
  completionChunks : Except JsThrown (List (List Char))

/-- A throw in flight inside `ChatAPIWeb`'s `try`: the throwable together
with the history writes that already reached the store and the model name
passed to `completions.create` if that call was reached. -/
structure WebThrow where
  thrown : JsThrown
  writesSoFar : List HistoryWrite
  modelPassed : Option String

/-- `handleChatCompletion` of `chat-api-web.ts`: records the user message,
then calls the completion endpoint; on stream completion the assistant
message is recorded.  The function has no `try` of its own, so its throws
propagate to `ChatAPIWeb`'s `catch`. -/
def handleChatCompletion (env : WebEnv) (lastHumanMessage : ChatMessage)
    (chatAPIModel : String) (_webPageContents : List Evidence) :
    Except WebThrow HandlerRun :=
  match env.addUserMessage with
  | .error e => .error { thrown := e, writesSoFar := [], modelPassed := none }
  | .ok _ =>
  let writes1 : List HistoryWrite :=
    [{ message := { role := "user", content := lastHumanMessage.content },
       context := none }]
  match env.completionChunks with
  | .error e =>
      .error { thrown := e, writesSoFar := writes1,
               modelPassed := some chatAPIModel }
  | .ok chunks =>
      .ok { response := .streaming chunks.flatten,
            writes := writes1 ++
              [{ message := { role := "assistant", content := ⟨chunks.flatten⟩ },
                 context := none }],
            modelRequested := some chatAPIModel }

/-- `ChatAPIWeb` (`chat-api-web.ts`): the entire body sits inside one
`try`, so every listed failure is converted by the single `catch` into the
500 response.  An absent `searchResult?.webPages?.value` is not an error
and proceeds with an empty evidence list; otherwise the pages are scraped
(per-page failures degrade inside `collectWebPageContents` and never
throw). -/
def ChatAPIWeb (chatAPIModelFlag : String) (jp : JpDateTime) (env : WebEnv) :
    HandlerRun :=
  let handle : Except WebThrow HandlerRun :=
    match env.initSession with
    | .error e => .error { thrown := e, writesSoFar := [], modelPassed := none }
    | .ok lastHumanMessage =>
    let chatAPIModel := selectModelWeb chatAPIModelFlag
    match env.hashedId with
    | .error e => .error { thrown := e, writesSoFar := [], modelPassed := none }
    | .ok _userId =>
    match env.getMessages with
    | .error e => .error { thrown := e, writesSoFar := [], modelPassed := none }
    | .ok _history =>
    let _optimizedQuery := optimizeSearchQuery lastHumanMessage.content jp
    match env.searchValue with
    | .error e => .error { thrown := e, writesSoFar := [], modelPassed := none }
    | .ok none => handleChatCompletion env lastHumanMessage chatAPIModel []
    | .ok (some pages) =>
        handleChatCompletion env lastHumanMessage chatAPIModel
          (collectWebPageContents env.convertDate env.fetchOutcome pages)
  match handle with
  | .ok run => run
  | .error t =>
      { response := errorResponseOf t.thrown, writes := t.writesSoFar,
        modelRequested := t.modelPassed }

/-! ### Concrete inputs used by counterexamples and witnesses -/

/-- First chunk of the spec's two-chunk stream example. -/
def c2chunk1 : List Char := ("Answer text \x7b% citation items=[").data

/-- Second chunk of the spec's two-chunk stream example. -/
def c2chunk2 : List Char := ("\x7bname:\"a\",id:\"1\"\x7d] /%\x7d done").data

/-- A chunk ending in the middle of the opening token. -/
def splitOpenChunk1 : List Char := ("A \x7b% cit").data

/-- The continuation completing the marker begun in `splitOpenChunk1`. -/
def splitOpenChunk2 : List Char := ("ation items=[x] /%\x7d B").data

/-- A single chunk containing two complete citation markers. -/
def twoMarkerChunk : List Char :=
  ("A \x7b% citation x /%\x7d B \x7b% citation y /%\x7d C").data

/-- A fixed current Japan time for the query-enrichment claims. -/
def jpFixed : JpDateTime := { year := 2026, month := 10, isoDate := "2026-10-11" }

/-- A valid retrieval hit (both `source` and `deptName` present). -/
def docValid : RelevantDocument :=
  { pageContent := "line1\nline2", source := "https://ex/a.pdf",
    deptName := "総務部", id := "doc-1" }

/-- A retrieval hit missing `source`. -/
def docNoSource : RelevantDocument :=
  { pageContent := "body2", source := "", deptName := "営業部", id := "doc-2" }

/-- A simple-variant environment whose session initialization throws. -/
def envSimpleInitThrow : SimpleEnv :=
  { initSession := .error (.jsError "boom" "Error: boom"),
    hashedId := .ok "uid", addUserMessage := .ok (), getMessages := .ok [],
    completionChunks := .ok [] }

/-- A simple-variant environment whose completion call throws. -/
def envSimpleCompletionThrow : SimpleEnv :=
  { initSession := .ok { role := "user", content := "hi" },
    hashedId := .ok "uid", addUserMessage := .ok (), getMessages := .ok [],
    completionChunks := .error (.jsError "api down" "Error: api down") }

/-- A document-variant environment whose similarity search throws. -/
def envDocRetrievalThrow : DocEnv :=
  { initSession := .ok { role := "user", content := "質問" },
    hashedId := .ok "uid", getMessages := .ok [],
    relevantDocuments := .error (.jsError "search failed" "Error: search failed"),
    completionChunks := .ok [] }

/-- A document-variant environment whose completion call throws. -/
def envDocCompletionThrow : DocEnv :=
  { initSession := .ok { role := "user", content := "質問" },
    hashedId := .ok "uid", getMessages := .ok [],
    relevantDocuments := .ok [docValid],
    completionChunks := .error JsThrown.nonError }

/-- A document-variant environment whose completion succeeds. -/
def envDocOk : DocEnv :=
  { initSession := .ok { role := "user", content := "質問" },
    hashedId := .ok "uid", getMessages := .ok [],
    relevantDocuments := .ok [docValid, docNoSource],
    completionChunks := .ok [("回答 ").data, ("了").data] }

/-- A web-variant environment with no search results and a successful
completion. -/
def envWebNoResults : WebEnv :=
  { initSession := .ok { role := "user", content := "hello" },
    hashedId := .ok "uid", getMessages := .ok [],
    searchValue := .ok none,
    convertDate := fun s => s, fetchOutcome := fun _ => FetchOutcome.failed,
    addUserMessage := .ok (), completionChunks := .ok [("ok").data] }

/-- A web-variant environment whose completion call throws. -/
def envWebCompletionThrow : WebEnv :=
  { initSession := .ok { role := "user", content := "hello" },
    hashedId := .ok "uid", getMessages := .ok [],
    searchValue := .ok none,
    convertDate := fun s => s, fetchOutcome := fun _ => FetchOutcome.failed,
    addUserMessage := .ok (),
    completionChunks := .error (.jsError "api" "Error: api") }

/-- Two search pages used by the evidence-collector witness. -/
def pageOne : SearchPage :=
  { url := "https://ex/1", name := "One", snippet := "snip1", datePublished := "2026-10-01" }

/-- Second search page; its fetch will fail in the witness. -/
def pageTwo : SearchPage :=
  { url := "https://ex/2", name := "Two", snippet := "snip2", datePublished := "" }

/-- Fetch oracle for the witness: page one succeeds, page two fails. -/
def witnessFetch (p : SearchPage) : FetchOutcome :=
  if p.url == "https://ex/1" then
    FetchOutcome.fetched "https://ex/1/" "extracted text" (some "2026-10-02")
  else FetchOutcome.failed

/-! ### Helper lemmas about the transformer -/

theorem isPrefixOf_append_self (x b : List Char) : x.isPrefixOf (x ++ b) = true := by
  induction x with
  | nil => simp [List.isPrefixOf]
  | cons c t ih => simp [List.isPrefixOf, ih]

theorem subIndex_of_isPrefixOf (needle hay : List Char)
    (h : needle.isPrefixOf hay = true) : subIndex needle hay = some 0 := by
  cases hay with
  | nil => simp [subIndex, h]
  | cons c t => simp [subIndex, h]

/-- A list occurring in the middle is found by `containsSub`. -/
theorem containsSub_middle (a x b : List Char) :
    containsSub (a ++ (x ++ b)) x = true := by
  induction a with
  | nil =>
      simp only [List.nil_append, containsSub,
        subIndex_of_isPrefixOf x (x ++ b) (isPrefixOf_append_self x b),
        Option.isSome_some]
  | cons c t ih =>
      unfold containsSub at ih ⊢
      rw [List.cons_append]
      by_cases hp : x.isPrefixOf (c :: (t ++ (x ++ b))) = true
      · simp [subIndex, hp]
      · rcases hs : subIndex x (t ++ (x ++ b)) with _ | k
        · rw [hs] at ih; simp at ih
        · simp [subIndex, hp, hs]

/-- The pass-through branch: no full opening token in the buffer means the
incoming text is forwarded unchanged and the buffer is cleared. -/
theorem transformStep_pass (cd : List CitationItem) (st text : List Char)
    (h : containsSub (st ++ text) openTok = false) :
    transformStep cd st text = (text, []) := by
  simp [transformStep, h]

/-- The withhold branch: an opening token without a closing token stalls all
output and keeps the whole buffer. -/
theorem transformStep_wait (cd : List CitationItem) (st text : List Char)
    (h1 : containsSub (st ++ text) openTok = true)
    (h2 : containsSub (st ++ text) closeTok = false) :
    transformStep cd st text = ([], st ++ text) := by
  simp [transformStep, h1, h2]

/-- The rewrite branch: with both tokens present, a two-part split and a
closing token inside the second part, the text before the marker, the
freshly serialized marker and the remainder after the closing token are
forwarded and the buffer is cleared. -/
theorem transformStep_rewrite (cd : List CitationItem) (st text p0 p1 : List Char)
    (rest : List (List Char)) (n : Nat)
    (h1 : containsSub (st ++ text) openTok = true)
    (h2 : containsSub (st ++ text) closeTok = true)
    (hs : splitCitation (st ++ text) = p0 :: p1 :: rest)
    (hn : subIndex closeTok p1 = some n) :
    transformStep cd st text = (p0 ++ newCitation cd ++ p1.drop (n + 3), []) := by
  simp [transformStep, h1, h2, hs, hn]


/-! ### Claims C1-C3: the Stream Rewriter -/

/-- C1 (amended): marker detection requires the full opening token
`\x7b% citation` to be present in the accumulated buffer.  If the buffer
(previous remainder plus incoming chunk) does not contain the full opening
token, the entire incoming chunk text is forwarded immediately and the
buffer cleared — so an opening token split across a chunk boundary is
forwarded rather than withheld.  If the buffer contains the opening token
but not yet the closing token, nothing at all is forwarded — including
prose before the opening token — until a later chunk completes the
marker. -/
theorem spec_c1_buffering_amended (cd : List CitationItem) (st text : List Char) :
    (containsSub (st ++ text) openTok = false →
      transformStep cd st text = (text, [])) ∧
    (containsSub (st ++ text) openTok = true →
      containsSub (st ++ text) closeTok = false →
      transformStep cd st text = ([], st ++ text)) :=
  ⟨transformStep_pass cd st text, transformStep_wait cd st text⟩

/-- C1 (counterexample): with the opening token split across the chunk
boundary as `"A \x7b% cit"` / `"ation items=[x] /%\x7d B"`, the claim
demands that nothing at or after the opening token's start be forwarded
before the closing token arrives; the transformer instead forwards each
chunk verbatim (first conjunct: the whole first chunk, opening included, is
emitted at once), and never rewrites the marker. -/
theorem spec_c1_buffering_counterexample :
    transformStep [] [] splitOpenChunk1 = (splitOpenChunk1, []) ∧
    transformStep [] [] splitOpenChunk2 = (splitOpenChunk2, []) ∧
    containsSub (splitOpenChunk1 ++ splitOpenChunk2) openTok = true ∧
    splitOpenChunk1 ≠ ("A ").data := by
  decide

/-- C1 (witness): the amended claim at concrete inputs — a markerless chunk
passes through unchanged; a chunk with an unclosed marker is withheld
whole. -/
theorem spec_c1_buffering_witness :
    transformStep [] [] ("hi").data = (("hi").data, []) ∧
    transformStep [] [] ("x \x7b% citation y").data =
      ([], ("x \x7b% citation y").data) :=
  ⟨(spec_c1_buffering_amended [] [] (("hi").data)).1 (by decide),
   (spec_c1_buffering_amended [] [] (("x \x7b% citation y").data)).2
     (by decide) (by decide)⟩

/-- C2 (confirmed): feeding `"Answer text \x7b% citation items=["` and then
`"\x7bname:\"a\",id:\"1\"\x7d] /%\x7d done"` emits nothing after the first
chunk, and after the second chunk emits exactly `"Answer text "`, the marker
freshly serialized from the citation candidate list (whatever that list is
— the model's original items are discarded), then `" done"`, leaving an
empty buffer. -/
theorem spec_c2_two_chunk_rewrite (cd : List CitationItem) :
    (runChunks cd [c2chunk1, c2chunk2]).1 =
      [[], ("Answer text ").data ++ newCitation cd ++ (" done").data] ∧
    (runChunks cd [c2chunk1, c2chunk2]).2 = [] := by
  have e1 : transformStep cd [] c2chunk1 = ([], c2chunk1) :=
    transformStep_wait cd [] c2chunk1 (by decide) (by decide)
  have hdrop : ((" items=[\x7bname:\"a\",id:\"1\"\x7d] /%\x7d done").data).drop 30 =
      (" done").data := by decide
  have e2 : transformStep cd c2chunk1 c2chunk2 =
      (("Answer text ").data ++ newCitation cd ++ (" done").data, []) := by
    have h := transformStep_rewrite cd c2chunk1 c2chunk2 (("Answer text ").data)
      ((" items=[\x7bname:\"a\",id:\"1\"\x7d] /%\x7d done").data) [] 27
      (by decide) (by decide) (by decide) (by decide)
    simpa [hdrop] using h
  simp [runChunks, e1, e2]

/-- C3 (amended): prose around a single complete citation marker is
preserved.  When the accumulated buffer is prose, one opening token, a
payload, the closing token and trailing text — with the opening-token match
unique (witnessed by the two-part split) and the closing token first
occurring right after the payload — the forwarded output is exactly the
leading prose, the freshly serialized marker and the trailing text, with
only the marker's item list replaced.  (Prose after a second complete
marker in the same buffer is dropped; see the counterexample.) -/
theorem spec_c3_prose_amended (cd : List CitationItem) (pre mid post : List Char)
    (hsplit : splitCitation (pre ++ (openTok ++ (mid ++ (closeTok ++ post)))) =
      [pre, mid ++ (closeTok ++ post)])
    (hclose : subIndex closeTok (mid ++ (closeTok ++ post)) = some mid.length) :
    transformStep cd [] (pre ++ (openTok ++ (mid ++ (closeTok ++ post)))) =
      (pre ++ newCitation cd ++ post, []) := by
  have h1 : containsSub (pre ++ (openTok ++ (mid ++ (closeTok ++ post)))) openTok
      = true := containsSub_middle pre openTok (mid ++ (closeTok ++ post))
  have h2 : containsSub (pre ++ (openTok ++ (mid ++ (closeTok ++ post)))) closeTok
      = true := by
    have h := containsSub_middle (pre ++ openTok ++ mid) closeTok post
    simpa [List.append_assoc] using h
  have h3 := transformStep_rewrite cd []
    (pre ++ (openTok ++ (mid ++ (closeTok ++ post))))
    pre (mid ++ (closeTok ++ post)) [] mid.length h1 h2 hsplit hclose
  have hct : closeTok.length = 3 := by decide
  have hdrop : (mid ++ (closeTok ++ post)).drop (mid.length + 3) = post := by
    rw [← List.append_assoc, ← hct,
      show mid.length + closeTok.length = (mid ++ closeTok).length from
        (List.length_append mid closeTok).symm,
      List.drop_left]
  rw [hdrop] at h3
  exact h3

/-- C3 (counterexample): with two complete markers in the buffer at once,
the prose after the second marker (here the character `C`) is dropped from
the forwarded output, refuting the claim that every prose character outside
marker payloads appears in the output. -/
theorem spec_c3_prose_counterexample :
    'C' ∈ twoMarkerChunk ∧
    ¬ 'C' ∈ runAll [] [twoMarkerChunk] ∧
    runAll [] [twoMarkerChunk] =
      ("A \x7b% citation items=[\x7b\"name\":\"Document Not Found\",\"id\":\"unknown\"\x7d] /%\x7d B ").data := by
  decide

/-- C3 (witness): the amended claim at a concrete single-marker buffer. -/
theorem spec_c3_prose_witness :
    transformStep [{ name := "総務部", id := "doc-1", source := "s" }] []
        (("Hello ").data ++ (openTok ++ ((" items=[old] ").data ++
          (closeTok ++ (" tail").data)))) =
      (("Hello ").data ++
        newCitation [{ name := "総務部", id := "doc-1", source := "s" }] ++
        (" tail").data, []) :=
  spec_c3_prose_amended [{ name := "総務部", id := "doc-1", source := "s" }]
    (("Hello ").data) ((" items=[old] ").data) ((" tail").data)
    (by decide) (by decide)


/-! ### Claims C4, C5, C10: model pinning, error boundaries, history -/

/-- Helper: the `catch`-produced 500 is never an escaped exception. -/
theorem errorResponseOf_ne_uncaught (e x : JsThrown) :
    errorResponseOf e ≠ ApiRes.uncaught x := by
  cases e <;> simp [errorResponseOf]

/-- C4 (counterexample): in the web variant the request flag `"GPT-3"`
selects `"gpt-35-turbo-16k"`, not the fixed lightweight model, and that is
the model name passed to the completion call. -/
theorem spec_c4_model_counterexample :
    selectModelWeb "GPT-3" = "gpt-35-turbo-16k" ∧
    selectModelWeb "GPT-3" ≠ "gpt-4o-mini" ∧
    (ChatAPIWeb "GPT-3" jpFixed envWebNoResults).modelRequested =
      some "gpt-35-turbo-16k" :=
  ⟨rfl, by decide, rfl⟩

/-- C4 (amended): the simple and document handlers always pass the fixed
`"gpt-4o-mini"` to the completion call (their `GPT-3` branch is dead code);
the web handler honours the flag, passing `"gpt-35-turbo-16k"` for
`"GPT-3"` and `"gpt-4o-mini"` otherwise. -/
theorem spec_c4_model_amended (flag : String) :
    selectModelSimple flag = "gpt-4o-mini" ∧
    selectModelDoc flag = "gpt-4o-mini" ∧
    selectModelWeb flag =
      (if flag == "GPT-3" then "gpt-35-turbo-16k" else "gpt-4o-mini") ∧
    (∀ env : SimpleEnv, (ChatAPISimple flag env).modelRequested = none ∨
      (ChatAPISimple flag env).modelRequested = some "gpt-4o-mini") ∧
    (∀ env : DocEnv, (ChatAPIDoc flag env).modelRequested = none ∨
      (ChatAPIDoc flag env).modelRequested = some "gpt-4o-mini") ∧
    (∀ (jp : JpDateTime) (env : WebEnv),
      (ChatAPIWeb flag jp env).modelRequested = none ∨
      (ChatAPIWeb flag jp env).modelRequested = some (selectModelWeb flag)) := by
  refine ⟨rfl, rfl, rfl, ?_, ?_, ?_⟩
  · intro env
    rcases h1 : env.initSession with e1 | m1 <;>
      rcases h2 : env.hashedId with e2 | u2 <;>
        rcases h3 : env.addUserMessage with e3 | u3 <;>
          rcases h4 : env.getMessages with e4 | hs4 <;>
            rcases h5 : env.completionChunks with e5 | ch5 <;>
              simp [ChatAPISimple, h1, h2, h3, h4, h5, selectModelSimple]
  · intro env
    rcases h1 : env.initSession with e1 | m1 <;>
      rcases h2 : env.hashedId with e2 | u2 <;>
        rcases h3 : env.getMessages with e3 | hs3 <;>
          rcases h4 : env.relevantDocuments with e4 | ds4 <;>
            rcases h5 : env.completionChunks with e5 | ch5 <;>
              simp [ChatAPIDoc, h1, h2, h3, h4, h5, selectModelDoc]
  · intro jp env
    rcases h1 : env.initSession with e1 | m1 <;>
      rcases h2 : env.hashedId with e2 | u2 <;>
        rcases h3 : env.getMessages with e3 | hs3 <;>
          rcases h4 : env.searchValue with e4 | sv4 <;>
            rcases h5 : env.addUserMessage with e5 | u5 <;>
              rcases h6 : env.completionChunks with e6 | ch6 <;>
                first
                  | (rcases sv4 with _ | pages <;>
                      simp [ChatAPIWeb, handleChatCompletion,
                        h1, h2, h3, h4, h5, h6])
                  | simp [ChatAPIWeb, handleChatCompletion,
                      h1, h2, h3, h4, h5, h6]

/-- C5 (counterexample): a throw from session initialization in the simple
variant escapes the handler uncaught instead of producing the claimed
status-500 response. -/
theorem spec_c5_errors_counterexample :
    (ChatAPISimple "GPT-4" envSimpleInitThrow).response =
      ApiRes.uncaught (.jsError "boom" "Error: boom") ∧
    (ChatAPISimple "GPT-4" envSimpleInitThrow).response ≠
      ApiRes.plain "boom" 500 "Error: boom" := by
  decide

/-- C5 (amended): only code inside each handler's `try` block is converted
to the 500 response.  In the simple and document variants, session init,
history access and retrieval run before the `try`, so their exceptions
escape the handler (first two conjuncts); the web variant wraps its whole
body, so no exception ever escapes it (third conjunct).  A throw from the
completion call is caught in all three variants and mapped to the 500
response with the Error's message as body and its string form as status
text, or the generic unknown-error body (remaining conjuncts). -/
theorem spec_c5_errors_amended :
    (∀ (flag : String) (env : SimpleEnv) (e : JsThrown),
        env.initSession = .error e →
        (ChatAPISimple flag env).response = .uncaught e) ∧
    (∀ (flag : String) (env : DocEnv) (lhm : ChatMessage) (uid : String)
        (hist : List ChatMessage) (e : JsThrown),
        env.initSession = .ok lhm → env.hashedId = .ok uid →
        env.getMessages = .ok hist → env.relevantDocuments = .error e →
        (ChatAPIDoc flag env).response = .uncaught e) ∧
    (∀ (flag : String) (jp : JpDateTime) (env : WebEnv) (e : JsThrown),
        (ChatAPIWeb flag jp env).response ≠ .uncaught e) ∧
    (∀ (flag : String) (env : SimpleEnv) (lhm : ChatMessage) (uid : String)
        (hist : List ChatMessage) (e : JsThrown),
        env.initSession = .ok lhm → env.hashedId = .ok uid →
        env.addUserMessage = .ok () → env.getMessages = .ok hist →
        env.completionChunks = .error e →
        (ChatAPISimple flag env).response = errorResponseOf e) ∧
    (∀ (flag : String) (env : DocEnv) (lhm : ChatMessage) (uid : String)
        (hist : List ChatMessage) (docs : List RelevantDocument) (e : JsThrown),
        env.initSession = .ok lhm → env.hashedId = .ok uid →
        env.getMessages = .ok hist → env.relevantDocuments = .ok docs →
        env.completionChunks = .error e →
        (ChatAPIDoc flag env).response = errorResponseOf e) ∧
    (∀ (flag : String) (jp : JpDateTime) (env : WebEnv) (lhm : ChatMessage)
        (uid : String) (hist : List ChatMessage)
        (sv : Option (List SearchPage)) (e : JsThrown),
        env.initSession = .ok lhm → env.hashedId = .ok uid →
        env.getMessages = .ok hist → env.searchValue = .ok sv →
        env.addUserMessage = .ok () → env.completionChunks = .error e →
        (ChatAPIWeb flag jp env).response = errorResponseOf e) := by
  refine ⟨?_, ?_, ?_, ?_, ?_, ?_⟩
  · intro flag env e h1
    simp [ChatAPISimple, h1]
  · intro flag env lhm uid hist e h1 h2 h3 h4
    simp [ChatAPIDoc, h1, h2, h3, h4]
  · intro flag jp env e
    rcases h1 : env.initSession with e1 | m1 <;>
      rcases h2 : env.hashedId with e2 | u2 <;>
        rcases h3 : env.getMessages with e3 | hs3 <;>
          rcases h4 : env.searchValue with e4 | sv4 <;>
            rcases h5 : env.addUserMessage with e5 | u5 <;>
              rcases h6 : env.completionChunks with e6 | ch6 <;>
                first
                  | (rcases sv4 with _ | pages <;>
                      simp [ChatAPIWeb, handleChatCompletion, h1, h2, h3, h4,
                        h5, h6, ne_eq, errorResponseOf_ne_uncaught])
                  | simp [ChatAPIWeb, handleChatCompletion, h1, h2, h3, h4,
                      h5, h6, ne_eq, errorResponseOf_ne_uncaught]
  · intro flag env lhm uid hist e h1 h2 h3 h4 h5
    simp [ChatAPISimple, h1, h2, h3, h4, h5]
  · intro flag env lhm uid hist docs e h1 h2 h3 h4 h5
    simp [ChatAPIDoc, h1, h2, h3, h4, h5]
  · intro flag jp env lhm uid hist sv e h1 h2 h3 h4 h5 h6
    rcases sv with _ | pages <;>
      simp [ChatAPIWeb, handleChatCompletion, h1, h2, h3, h4, h5, h6]

/-- C5 (witness): the amended claim at concrete environments — a retrieval
throw escapes the document handler; completion throws yield the 500
responses in the simple and web handlers; the web handler never leaks. -/
theorem spec_c5_errors_witness :
    (ChatAPIDoc "GPT-3" envDocRetrievalThrow).response =
      ApiRes.uncaught (.jsError "search failed" "Error: search failed") ∧
    (ChatAPISimple "GPT-4" envSimpleCompletionThrow).response =
      ApiRes.plain "api down" 500 "Error: api down" ∧
    (ChatAPIWeb "GPT-4" jpFixed envWebCompletionThrow).response =
      ApiRes.plain "api" 500 "Error: api" ∧
    (ChatAPIWeb "GPT-4" jpFixed envWebNoResults).response ≠
      ApiRes.uncaught JsThrown.nonError := by
  refine ⟨?_, ?_, ?_, ?_⟩
  · exact spec_c5_errors_amended.2.1 "GPT-3" envDocRetrievalThrow
      { role := "user", content := "質問" } "uid" []
      (.jsError "search failed" "Error: search failed") rfl rfl rfl rfl
  · exact spec_c5_errors_amended.2.2.2.1 "GPT-4" envSimpleCompletionThrow
      { role := "user", content := "hi" } "uid" []
      (.jsError "api down" "Error: api down") rfl rfl rfl rfl rfl
  · exact spec_c5_errors_amended.2.2.2.2.2 "GPT-4" jpFixed
      envWebCompletionThrow { role := "user", content := "hello" } "uid" []
      none (.jsError "api" "Error: api") rfl rfl rfl rfl rfl rfl
  · exact spec_c5_errors_amended.2.2.1 "GPT-4" jpFixed envWebNoResults
      JsThrown.nonError

/-- C10 (confirmed): in the document variant, once the pre-completion steps
have succeeded, a throw from the completion call leaves the history store
untouched while returning the 500 response, and a successful stream makes
exactly two writes in order: the user message, then the assistant message
carrying the full raw completion with the retrieval context attached. -/
theorem spec_c10_doc_history_atomicity (flag : String) (env : DocEnv)
    (lhm : ChatMessage) (uid : String) (hist : List ChatMessage)
    (docs : List RelevantDocument)
    (h1 : env.initSession = .ok lhm) (h2 : env.hashedId = .ok uid)
    (h3 : env.getMessages = .ok hist) (h4 : env.relevantDocuments = .ok docs) :
    (∀ e, env.completionChunks = .error e →
        (ChatAPIDoc flag env).writes = [] ∧
        (ChatAPIDoc flag env).response = errorResponseOf e) ∧
    (∀ chunks, env.completionChunks = .ok chunks →
        (ChatAPIDoc flag env).writes =
          [{ message := { role := "user", content := lhm.content },
             context := none },
           { message := { role := "assistant", content := ⟨chunks.flatten⟩ },
             context := some (docContext docs) }]) := by
  constructor
  · intro e he
    constructor <;> simp [ChatAPIDoc, h1, h2, h3, h4, he]
  · intro chunks hc
    simp [ChatAPIDoc, h1, h2, h3, h4, hc]

/-- C10 (witness): the atomicity facts at concrete environments — no write
on a completion throw; exactly the two ordered writes on success. -/
theorem spec_c10_doc_history_atomicity_witness :
    (ChatAPIDoc "GPT-4" envDocCompletionThrow).writes = [] ∧
    (ChatAPIDoc "GPT-4" envDocOk).writes =
      [{ message := { role := "user", content := "質問" }, context := none },
       { message := { role := "assistant", content := "回答 了" },
         context := some (docContext [docValid, docNoSource]) }] := by
  constructor
  · exact ((spec_c10_doc_history_atomicity "GPT-4" envDocCompletionThrow
      { role := "user", content := "質問" } "uid" [] [docValid]
      rfl rfl rfl rfl).1 JsThrown.nonError rfl).1
  · have h := (spec_c10_doc_history_atomicity "GPT-4" envDocOk
      { role := "user", content := "質問" } "uid" [] [docValid, docNoSource]
      rfl rfl rfl rfl).2 [("回答 ").data, ("了").data] rfl
    rw [h]
    decide


/-! ### Claims C6-C9: citation candidates, evidence collector, enricher -/

/-- Helper: a list is pointwise related to its own map. -/
theorem forallTwo_map_self {α β : Type} (R : α → β → Prop) (f : α → β)
    (h : ∀ a, R a (f a)) (l : List α) : List.Forall₂ R l (l.map f) := by
  induction l with
  | nil => exact List.Forall₂.nil
  | cons a t ih => exact List.Forall₂.cons (h a) ih

/-- C6 (confirmed): the citation candidate list consists exactly of the
retrieval hits having both a `source` and a `deptName`, in retrieval order,
each contributing one item whose name is the hit's `deptName` and whose id
is its `id`; and a marker rewritten with an empty candidate list serializes
exactly the single `\x7bname: "Document Not Found", id: "unknown"\x7d`
placeholder. -/
theorem spec_c6_citation_candidates :
    (∀ docs : List RelevantDocument,
      List.Forall₂
        (fun d it => it.name = d.deptName ∧ it.id = d.id ∧ it.source = d.source)
        (docs.filter (fun d => decide (d.source ≠ "" ∧ d.deptName ≠ "")))
        (citationData docs)) ∧
    validCitationData [] = [{ name := "Document Not Found", id := "unknown" }] ∧
    jsonOfItems (validCitationData []) =
      ("[\x7b\"name\":\"Document Not Found\",\"id\":\"unknown\"\x7d]").data ∧
    newCitation [] =
      ("\x7b% citation items=[\x7b\"name\":\"Document Not Found\",\"id\":\"unknown\"\x7d] /%\x7d").data := by
  refine ⟨?_, by decide, by decide, by decide⟩
  intro docs
  have hfe : (fun d : RelevantDocument => decide (d.source ≠ "" ∧ d.deptName ≠ ""))
      = (fun d => jsTruthy d.source && jsTruthy d.deptName) := by
    funext d
    by_cases hs : d.source = "" <;> by_cases hd : d.deptName = "" <;>
      simp [jsTruthy, hs, hd]
  rw [hfe, citationData]
  exact forallTwo_map_self _ _ (fun d => ⟨rfl, rfl, rfl⟩) _

/-- C7 (confirmed): for a search-result list where fetching fails on a
strict subset of the pages, the collector returns one evidence record per
page in the original order; a failed page's record has the search snippet
as its content and the (converted) search-provided date or `none` as its
publish date, while a fetched page's record carries the extracted page text
truncated to 2000 characters. -/
theorem spec_c7_evidence_isolation (convertDate : String → String)
    (outcome : SearchPage → FetchOutcome) (pages : List SearchPage)
    (hfail : ∃ p ∈ pages, outcome p = FetchOutcome.failed)
    (hsucc : ∃ p ∈ pages, outcome p ≠ FetchOutcome.failed) :
    (collectWebPageContents convertDate outcome pages).length = pages.length ∧
    List.Forall₂
      (fun p ev =>
        (outcome p = FetchOutcome.failed →
          ev.content = p.snippet ∧ ev.url = p.url ∧
          (p.datePublished = "" → ev.publishDate = none) ∧
          (p.datePublished ≠ "" →
            ev.publishDate = some (convertDate p.datePublished))) ∧
        (∀ cu txt pd, outcome p = FetchOutcome.fetched cu txt pd →
          ev.content = ⟨txt.data.take 2000⟩))
      pages (collectWebPageContents convertDate outcome pages) := by
  constructor
  · simp [collectWebPageContents]
  · apply forallTwo_map_self
    intro p
    constructor
    · intro hf
      refine ⟨?_, ?_, ?_, ?_⟩
      · by_cases hs : p.snippet = "" <;> simp [evidenceOf, hf, jsOrStr, hs]
      · simp [evidenceOf, hf]
      · intro hd; simp [evidenceOf, hf, fallbackDate, hd]
      · intro hd; simp [evidenceOf, hf, fallbackDate, hd]
    · intro cu txt pd hf
      simp [evidenceOf, hf]

/-- C7 (witness): two concrete pages, the second failing: two records in
order, the fetched page's extracted text and the failed page's snippet. -/
theorem spec_c7_evidence_isolation_witness :
    (collectWebPageContents (fun s => s) witnessFetch [pageOne, pageTwo]).length
      = 2 ∧
    (collectWebPageContents (fun s => s) witnessFetch [pageOne, pageTwo]).map
        (fun ev => ev.content) = ["extracted text", "snip2"] :=
  ⟨(spec_c7_evidence_isolation (fun s => s) witnessFetch [pageOne, pageTwo]
      ⟨pageTwo, by decide, by decide⟩ ⟨pageOne, by decide, by decide⟩).1,
   by decide⟩

/-- C8 (counterexample): `optimizeSearchQuery` is not idempotent — the
enriched query still contains the original message, so the temporal
patterns match again and the suffixes are appended a second time. -/
theorem spec_c8_idempotence_counterexample :
    optimizeSearchQuery (optimizeSearchQuery "今日" jpFixed) jpFixed ≠
      optimizeSearchQuery "今日" jpFixed ∧
    optimizeSearchQuery "今日" jpFixed = "今日 2026年10月 after:2026-10-11" ∧
    optimizeSearchQuery (optimizeSearchQuery "今日" jpFixed) jpFixed =
      "今日 2026年10月 after:2026-10-11 2026年10月 after:2026-10-11" := by
  decide

/-- C8 (amended): for a fixed current time, `optimizeSearchQuery` is
idempotent exactly on messages matching neither the temporal nor the
immediacy pattern, where it is the identity; on a matching message,
re-application appends the year-month and `after:` suffixes again. -/
theorem spec_c8_idempotence_amended (m : String) (jp : JpDateTime)
    (h1 : hasDatePattern m = false) (h2 : hasImmediacy m = false) :
    optimizeSearchQuery m jp = m ∧
    optimizeSearchQuery (optimizeSearchQuery m jp) jp =
      optimizeSearchQuery m jp := by
  have hid : optimizeSearchQuery m jp = m := by
    simp [optimizeSearchQuery, h1, h2]
  exact ⟨hid, by rw [hid, hid]⟩

/-- C8 (witness): the amended claim at a message with no temporal
reference. -/
theorem spec_c8_idempotence_witness :
    optimizeSearchQuery "こんにちは" jpFixed = "こんにちは" ∧
    optimizeSearchQuery (optimizeSearchQuery "こんにちは" jpFixed) jpFixed =
      optimizeSearchQuery "こんにちは" jpFixed :=
  spec_c8_idempotence_amended "こんにちは" jpFixed (by decide) (by decide)

/-- C9 (counterexample): the bare `今` matches the immediacy pattern but no
temporal date pattern (`今日`, `今週`, `今月`, `今年` all require a second
character), so only the `after:` token is appended and no year-month suffix
occurs — the immediacy pattern is not a subset of the temporal patterns. -/
theorem spec_c9_immediacy_counterexample :
    hasImmediacy "今" = true ∧
    hasDatePattern "今" = false ∧
    optimizeSearchQuery "今" jpFixed = "今 after:2026-10-11" ∧
    containsStr (optimizeSearchQuery "今" jpFixed) "年" = false := by
  decide

/-- C9 (amended): every message matching the immediacy pattern gets the
`after:` lower-bound token anchored to the current date; the
`year年month月` suffix is additionally prepended to it exactly when the
message also matches one of the temporal date patterns (true for `最新`,
`現在`, `本日` and `今日`, but not for a bare `今`). -/
theorem spec_c9_immediacy_amended (m : String) (jp : JpDateTime)
    (h : hasImmediacy m = true) :
    optimizeSearchQuery m jp =
      (if hasDatePattern m then
        m ++ " " ++ toString jp.year ++ "年" ++ toString jp.month ++ "月"
      else m) ++ " after:" ++ jp.isoDate := by
  cases hb : hasDatePattern m <;> simp [optimizeSearchQuery, h, hb]

/-- C9 (witness): the amended claim at `最新`, which matches both patterns,
so both appends occur. -/
theorem spec_c9_immediacy_witness :
    optimizeSearchQuery "最新" jpFixed = "最新 2026年10月 after:2026-10-11" := by
  have h := spec_c9_immediacy_amended "最新" jpFixed (by decide)
  rw [h]
  decide

end Kwassist
